import Mathlib

set_option autoImplicit false

namespace NsidcTutorial

/-! Shallow embedding of the order-submission and polling client of the
AGU-2019 NSIDC data tutorial.  The notebook `Customize and Access
Data-Rendered.ipynb` is the code authority; the helper module
`tutorial_helper_functions` it imports is not part of the repository
snapshot, so its operations (`request_data`, `granule_info`,
`clean_folder`, `print_cmr_metadata`) are modelled from the design
document, as flagged in each doc comment. -/

/-- Status vocabulary of a customization order, as enumerated in the design
document and printed by the rendered status-poll transcript of the access
notebook: pending and processing are in flight, the other three are
terminal. -/
inductive OrderStatus where
  | pending
  | processing
  | complete
  | complete_with_errors
  | failed
deriving DecidableEq

/-- A status is terminal when the remote service will no longer change it:
complete, complete_with_errors or failed. -/
def OrderStatus.isTerminal : OrderStatus → Bool
  | .complete => true
  | .complete_with_errors => true
  | .failed => true
  | _ => false

/-- An order as mirrored by the client: the identifier returned by the order
endpoint and the most recently observed status. -/
structure Order where
  orderId : String
  status : OrderStatus
deriving DecidableEq

/-- Modelled from the spec: `poll` issues a status read against the status URL of the order and returns the current status; it has no side effect beyond the
read, so the order is returned unchanged. -/
def poll (o : Order) : OrderStatus × Order :=
  (o.status, o)

/-- Modelled from the spec: one step of the remote service between two polls.
The lifecycle state machine lets the service move a non-terminal order to any
status, while a terminal order has no outgoing transition and never changes
again. -/
def remoteAdvance (next : OrderStatus) (o : Order) : Order :=
  if o.status.isTerminal then o else { o with status := next }

/-- Poll an order `n` times, letting the remote service advance it between
consecutive polls according to the environment `env`; returns the list of
observed statuses and the final order. -/
def pollTimes (env : Nat → OrderStatus) : Nat → Order → List OrderStatus × Order
  | 0, o => ([], o)
  | n + 1, o =>
      let r := poll o
      let o2 := remoteAdvance (env n) r.2
      let rest := pollTimes env n o2
      (r.1 :: rest.1, rest.2)

/-- Modelled from the spec: the status-poll loop inside `request_data` (the
helper module is absent from the snapshot).  It re-polls after a fixed sleep
whenever the observed status is non-terminal; there is no retry cap and no
deadline in the code, so `fuel` bounds the number of polls for analysis only,
and `none` means the loop is still running after `fuel` polls.  `statuses i`
is the status observed by the i-th poll. -/
def pollLoop (statuses : Nat → OrderStatus) : Nat → Nat → Option OrderStatus
  | 0, _ => none
  | fuel + 1, i =>
      if (statuses i).isTerminal then some (statuses i)
      else pollLoop statuses fuel (i + 1)

/-- Total time the poll loop of `request_data` spends sleeping during its
first `fuel` polls: the fixed inter-poll `delay` is paid after every
non-terminal observation. -/
def pollLoopSleep (delay : Nat) (statuses : Nat → OrderStatus) : Nat → Nat → Nat
  | 0, _ => 0
  | fuel + 1, i =>
      if (statuses i).isTerminal then 0
      else delay + pollLoopSleep delay statuses fuel (i + 1)

/-- Claim C1: if the polled status never becomes terminal, the poll loop of
`request_data` never returns within any bound on the number of polls — there
is no maximum retry count — and the time it spends blocked grows as the fixed
inter-poll delay times the number of polls, so no overall timeout bounds the
loop. -/
theorem poll_loop_never_returns (statuses : Nat → OrderStatus) (delay : Nat)
    (h : ∀ i, (statuses i).isTerminal = false) :
    ∀ fuel start, pollLoop statuses fuel start = none ∧
      pollLoopSleep delay statuses fuel start = delay * fuel := by
  intro fuel
  induction fuel with
  | zero => intro start; exact ⟨rfl, by simp [pollLoopSleep]⟩
  | succ n ih =>
      intro start
      have hs := h start
      constructor
      · simp only [pollLoop, hs, if_false, Bool.false_eq_true]
        exact (ih (start + 1)).1
      · simp only [pollLoopSleep, hs, if_false, Bool.false_eq_true]
        rw [(ih (start + 1)).2]
        ring

/-- Witness for C1: a stream of polls stuck at `processing` makes the loop
return nothing after 7 polls, having slept 7 times the 10-unit delay. -/
theorem poll_loop_never_returns_witness :
    pollLoop (fun _ => OrderStatus.processing) 7 0 = none ∧
      pollLoopSleep 10 (fun _ => OrderStatus.processing) 7 0 = 10 * 7 :=
  poll_loop_never_returns (fun _ => OrderStatus.processing) 10 (fun _ => rfl) 7 0

/-- Claim C2: polling a terminal order is idempotent — every one of `n`
repeated polls observes the same terminal status, and the order afterwards is
unchanged, whatever statuses the environment would have pushed a non-terminal
order towards. -/
theorem poll_idempotent_terminal (env : Nat → OrderStatus) (o : Order)
    (h : o.status.isTerminal = true) :
    ∀ n, (pollTimes env n o).1 = List.replicate n o.status ∧
      (pollTimes env n o).2 = o := by
  intro n
  induction n with
  | zero => exact ⟨rfl, rfl⟩
  | succ m ih =>
      have hadv : remoteAdvance (env m) o = o := by
        simp [remoteAdvance, h]
      constructor
      · show o.status :: (pollTimes env m (remoteAdvance (env m) o)).1 = _
        rw [hadv, ih.1, List.replicate_succ]
      · show (pollTimes env m (remoteAdvance (env m) o)).2 = o
        rw [hadv, ih.2]

/-- Witness for C2: three polls of a completed order all observe `complete`
and leave the order as it was. -/
theorem poll_idempotent_terminal_witness :
    (pollTimes (fun _ => OrderStatus.processing) 3
        { orderId := "5000000435084", status := OrderStatus.complete }).1 =
      List.replicate 3 OrderStatus.complete ∧
      (pollTimes (fun _ => OrderStatus.processing) 3
        { orderId := "5000000435084", status := OrderStatus.complete }).2 =
      { orderId := "5000000435084", status := OrderStatus.complete } :=
  poll_idempotent_terminal (fun _ => OrderStatus.processing)
    { orderId := "5000000435084", status := OrderStatus.complete } rfl 3

/-- A Python value as it occurs in the `data_dict` of the notebook: every value is
either a string or an integer (`page_size = 2000`, `gran_num = 3`). -/
inductive PyVal where
  | str (s : String)
  | int (n : Int)
deriving DecidableEq

/-- A parameter mapping (a Python dict in insertion order, keys unique). -/
abbrev ParamMap : Type := List (String × PyVal)

/-- Whether a parameter mapping carries a given key. -/
def ParamMap.hasKey (p : ParamMap) (k : String) : Bool :=
  (List.lookup k p).isSome

/-- Modelled from the spec: submission preconditions — the parameters must
include a dataset short name, a version, and at least one of area or time
scoping. -/
def wellFormed (p : ParamMap) : Bool :=
  p.hasKey "short_name" && p.hasKey "version" &&
    (p.hasKey "bounding_box" || p.hasKey "temporal")

/-- The error kinds of the workflow.  The design document enumerates four
documented kinds; `httpError` stands for a raw `requests.HTTPError` escaping
from `raise_for_status` inside the poll loop. -/
inductive ApiError where
  | authenticationFailure
  | requestRejected
  | orderFailed
  | downloadFailure
  | httpError (code : Nat)
deriving DecidableEq

/-- The four error kinds documented by the design document. -/
def ApiError.documented : ApiError → Bool
  | .httpError _ => false
  | _ => true

/-- HTTP status codes that the requests library treats as failures:
`raise_for_status` raises exactly on 4xx and 5xx codes. -/
def isHttpError (code : Nat) : Bool :=
  400 ≤ code && code < 600

/-- The response of the order endpoint as seen by the client: the HTTP status
code and the order identifiers carried in the response body. -/
structure SubmitResponse where
  code : Nat
  orderIds : List String
deriving DecidableEq

/-- Modelled from the spec: `submit` sends the parameter mapping to the order
endpoint over the authenticated session.  A 4xx/5xx response raises at once
(RequestRejected), a response carrying no usable order identifier is likewise
rejected, and otherwise the returned handle mirrors the identifier with the
order in its initial `processing` state. -/
def submit (params : ParamMap) (resp : SubmitResponse) : Except ApiError Order :=
  if isHttpError resp.code then .error .requestRejected
  else
    match resp.orderIds with
    | [] => .error .requestRejected
    | oid :: _ =>
        if oid = "" then .error .requestRejected
        else .ok { orderId := oid, status := OrderStatus.processing }

/-- Claim C3: for a well-formed parameter mapping, `submit` either raises one
of the documented errors or returns an order handle, and a returned handle
never carries an empty order identifier. -/
theorem submit_nonempty_or_documented_error (params : ParamMap)
    (resp : SubmitResponse) (h : wellFormed params = true) :
    (∃ e, submit params resp = .error e ∧ e.documented = true) ∨
      (∃ o, submit params resp = .ok o ∧ o.orderId ≠ "") := by
  clear h
  unfold submit
  by_cases hc : isHttpError resp.code
  · exact Or.inl ⟨ApiError.requestRejected, by simp [hc], rfl⟩
  · simp only [hc, Bool.false_eq_true, if_false]
    match resp.orderIds with
    | [] => exact Or.inl ⟨ApiError.requestRejected, rfl, rfl⟩
    | oid :: rest =>
        by_cases he : oid = ""
        · exact Or.inl ⟨ApiError.requestRejected, by simp [he], rfl⟩
        · exact Or.inr ⟨{ orderId := oid, status := OrderStatus.processing },
            by simp [he], he⟩

/-- Witness for C3: the well-formed CMR parameters of the notebook together with
the accepted (HTTP 201) response recorded in the rendered transcript yield a
handle whose identifier 5000000435084 is non-empty. -/
theorem submit_nonempty_or_documented_error_witness :
    (∃ e, submit [("short_name", PyVal.str "ATL07"), ("version", PyVal.str "002"),
        ("bounding_box", PyVal.str "140,72,153,80")]
        { code := 201, orderIds := ["5000000435084"] } = .error e ∧
        e.documented = true) ∨
      (∃ o, submit [("short_name", PyVal.str "ATL07"), ("version", PyVal.str "002"),
        ("bounding_box", PyVal.str "140,72,153,80")]
        { code := 201, orderIds := ["5000000435084"] } = .ok o ∧
        o.orderId ≠ "") :=
  submit_nonempty_or_documented_error _ _ (by decide)

/-- The archive produced by a finished order, keyed by its zip URL (the
rendered transcript shows the esir zip URL derived from the order id). -/
structure Archive where
  url : String
deriving DecidableEq

/-- Modelled from the spec: `fetch` resolves the archive URL of a terminal
order and downloads the zip.  It is permitted exactly after `complete` or
`complete_with_errors`; after `failed` there is no archive, so the fetch
raises (OrderFailed) instead of writing an empty file, and a non-terminal
order has no archive URL to resolve either. -/
def fetch (o : Order) : Except ApiError Archive :=
  match o.status with
  | .complete =>
      .ok { url := "https://n5eil02u.ecs.nsidc.org/esir/" ++ o.orderId ++ ".zip" }
  | .complete_with_errors =>
      .ok { url := "https://n5eil02u.ecs.nsidc.org/esir/" ++ o.orderId ++ ".zip" }
  | _ => .error .orderFailed

/-- Claim C4: fetching the archive succeeds exactly in the terminal states
`complete` and `complete_with_errors`, and on a `failed` order the fetch
raises OrderFailed rather than producing any file. -/
theorem fetch_permitted_exactly_on_success :
    (∀ o : Order, (∃ a, fetch o = .ok a) ↔
      (o.status = OrderStatus.complete ∨
        o.status = OrderStatus.complete_with_errors)) ∧
    (∀ oid, fetch { orderId := oid, status := OrderStatus.failed } =
      .error ApiError.orderFailed) := by
  constructor
  · intro o
    match ho : o.status with
    | .pending => simp [fetch, ho]
    | .processing => simp [fetch, ho]
    | .complete => simp [fetch, ho]
    | .complete_with_errors => simp [fetch, ho]
    | .failed => simp [fetch, ho]
  · intro oid
    rfl

/-- The extraction output directory: files already at the root, plus one
subdirectory of files per granule. -/
structure OutputDir where
  rootFiles : List String
  subdirs : List (String × List String)
deriving DecidableEq

/-- Total number of files in the tree. -/
def OutputDir.fileCount (d : OutputDir) : Nat :=
  d.rootFiles.length + (d.subdirs.map (fun p => p.2.length)).sum

/-- Modelled from the spec: `clean_folder` moves every file out of the
per-granule subdirectories into the root of the output directory and deletes
the emptied subdirectories, flattening the output to a single directory. -/
def clean_folder (d : OutputDir) : OutputDir :=
  { rootFiles := d.rootFiles ++ (d.subdirs.map (fun p => p.2)).flatten,
    subdirs := [] }

/-- Claim C5: after `clean_folder`, no per-granule subdirectory remains (so
no empty intermediate directory and depth is a single flat directory), the
total file count is preserved, and every file present before — at the root or
inside any subdirectory — is still present afterwards. -/
theorem clean_folder_flattens_and_preserves :
    ∀ d : OutputDir,
      (clean_folder d).subdirs = [] ∧
      (clean_folder d).fileCount = d.fileCount ∧
      (∀ f, f ∈ d.rootFiles → f ∈ (clean_folder d).rootFiles) ∧
      (∀ sub, sub ∈ d.subdirs → ∀ f, f ∈ sub.2 →
        f ∈ (clean_folder d).rootFiles) := by
  intro d
  refine ⟨rfl, ?_, ?_, ?_⟩
  · simp only [clean_folder, OutputDir.fileCount, List.length_append,
      List.length_flatten, List.map_map]
    rfl
  · intro f hf
    exact List.mem_append_left _ hf
  · intro sub hsub f hf
    refine List.mem_append_right _ ?_
    exact List.mem_flatten.2 ⟨sub.2, List.mem_map_of_mem _ hsub, hf⟩

/-- Embeds the credential-check cell of the notebook: `session.get` on the
capability URL followed by `response.raise_for_status()`, which raises
exactly on a 4xx/5xx status code — here surfacing as the fatal
AuthenticationFailure of a rejected login. -/
def credentialCheck (code : Nat) : Except ApiError Unit :=
  if isHttpError code then .error .authenticationFailure else .ok ()

/-- Modelled from the spec: the archive download step; a 4xx/5xx response on
the zip GET raises DownloadFailure before anything is written locally. -/
def download (code : Nat) : Except ApiError Unit :=
  if isHttpError code then .error .downloadFailure else .ok ()

/-- What one status poll yields: the HTTP status code of the GET on the
status URL and the order status parsed from its body. -/
structure PollResponse where
  code : Nat
  status : OrderStatus
deriving DecidableEq

/-- Modelled from the spec: the poll loop of `request_data` with transport
outcomes made explicit.  Each poll returns an HTTP code and a parsed status:
a 4xx/5xx code raises at once (the loop never retries a transport error), a
successful non-terminal status sleeps and re-polls, and a terminal status
leaves the loop.  `fuel` bounds the polls for analysis; `none` means the
loop is still retrying after `fuel` polls. -/
def pollPhase (polls : Nat → PollResponse) : Nat → Nat → Option (Except ApiError OrderStatus)
  | 0, _ => none
  | fuel + 1, i =>
      if isHttpError (polls i).code then
        some (.error (.httpError (polls i).code))
      else if (polls i).status.isTerminal then some (.ok (polls i).status)
      else pollPhase polls fuel (i + 1)

/-- The poll loop keeps running exactly as long as every poll so far came
back with a successful HTTP code and a non-terminal status. -/
theorem pollPhase_none_iff (polls : Nat → PollResponse) :
    ∀ fuel i, pollPhase polls fuel i = none ↔
      ∀ j, j < fuel → isHttpError (polls (i + j)).code = false ∧
        (polls (i + j)).status.isTerminal = false := by
  intro fuel
  induction fuel with
  | zero =>
      intro i
      simp [pollPhase]
  | succ n ih =>
      intro i
      unfold pollPhase
      by_cases hc : isHttpError (polls i).code
      · simp only [hc, if_true]
        constructor
        · intro h; exact absurd h (by simp)
        · intro h
          have := (h 0 (Nat.succ_pos n)).1
          rw [Nat.add_zero] at this
          rw [hc] at this
          exact absurd this (by simp)
      · simp only [hc, Bool.false_eq_true, if_false]
        by_cases ht : (polls i).status.isTerminal
        · simp only [ht, if_true]
          constructor
          · intro h; exact absurd h (by simp)
          · intro h
            have := (h 0 (Nat.succ_pos n)).2
            rw [Nat.add_zero] at this
            rw [ht] at this
            exact absurd this (by simp)
        · simp only [ht, Bool.false_eq_true, if_false]
          rw [ih (i + 1)]
          constructor
          · intro h j hj
            match j with
            | 0 =>
                rw [Nat.add_zero]
                exact ⟨Bool.eq_false_iff.2 hc, Bool.eq_false_iff.2 ht⟩
            | k + 1 =>
                have hk := h k (Nat.lt_of_succ_lt_succ hj)
                have e : i + 1 + k = i + (k + 1) := by omega
                rwa [e] at hk
          · intro h j hj
            have hk := h (j + 1) (Nat.succ_lt_succ hj)
            have e : i + (j + 1) = i + 1 + j := by omega
            rwa [e] at hk

/-- Claim C6: every non-success (4xx/5xx) HTTP status raises immediately —
on the credential check, on order submission, and on the archive download —
and the only retry anywhere is the status-poll loop, which keeps retrying
exactly while the polls return successful non-terminal statuses and aborts
at once on a transport error instead of retrying it. -/
theorem http_errors_abort_only_poll_retries :
    (∀ code, isHttpError code = true →
      credentialCheck code = .error ApiError.authenticationFailure) ∧
    (∀ (params : ParamMap) (resp : SubmitResponse), isHttpError resp.code = true →
      submit params resp = .error ApiError.requestRejected) ∧
    (∀ code, isHttpError code = true →
      download code = .error ApiError.downloadFailure) ∧
    (∀ (polls : Nat → PollResponse) fuel i, pollPhase polls fuel i = none ↔
      ∀ j, j < fuel → isHttpError (polls (i + j)).code = false ∧
        (polls (i + j)).status.isTerminal = false) ∧
    (∀ (polls : Nat → PollResponse) fuel i, isHttpError (polls i).code = true →
      pollPhase polls (fuel + 1) i =
        some (.error (.httpError (polls i).code))) := by
  refine ⟨?_, ?_, ?_, pollPhase_none_iff, ?_⟩
  · intro code hc; simp [credentialCheck, hc]
  · intro params resp hc; simp [submit, hc]
  · intro code hc; simp [download, hc]
  · intro polls fuel i hc; simp [pollPhase, hc]

/-- Witness for C6: a 401 on the credential check raises the authentication
error, a 501 poll response aborts the loop at once with the raw HTTP error,
and two successful `processing` polls leave the loop still retrying. -/
theorem http_errors_abort_only_poll_retries_witness :
    credentialCheck 401 = .error ApiError.authenticationFailure ∧
      pollPhase (fun _ => { code := 501, status := OrderStatus.processing }) 4 0 =
        some (.error (.httpError 501)) ∧
      pollPhase (fun _ => { code := 200, status := OrderStatus.processing }) 2 0 =
        none :=
  ⟨http_errors_abort_only_poll_retries.1 401 (by decide),
    http_errors_abort_only_poll_retries.2.2.2.2
      (fun _ => { code := 501, status := OrderStatus.processing }) 3 0 (by decide),
    (http_errors_abort_only_poll_retries.2.2.2.1
      (fun _ => { code := 200, status := OrderStatus.processing }) 2 0).2
      (fun j hj => by decide)⟩

/-- Embeds the `bounding_box` cell of the notebook: the spatial parameter in
decimal-degree W,S,E,N format over the East Siberian Sea. -/
def bounding_box : String := "140,72,153,80"

/-- Embeds the `temporal` cell of the notebook: start and end datetimes in
yyyy-MM-ddTHH:mm:ssZ format, comma separated. -/
def temporal : String := "2019-03-23T00:00:00Z,2019-03-23T23:59:59Z"

/-- Embeds the initial `data_dict` cell of the notebook: short name, version, and
the area and time of interest, in insertion order. -/
def data_dict : ParamMap :=
  [("short_name", PyVal.str "ATL07"),
   ("version", PyVal.str "002"),
   ("bounding_box", PyVal.str bounding_box),
   ("temporal", PyVal.str temporal)]

/-- Modelled from the spec: `granule_info` queries the CMR granule endpoint
with the search parameters and parses the JSON response — the granule count
is the number of feed.entry records and the total volume is the sum of their
size fields.  Sizes are carried in hundredths of a megabyte so the
arithmetic is exact; the function reports the pair (count, total size). -/
def granule_info (sizesHundredthsMB : List Nat) : Nat × Nat :=
  (sizesHundredthsMB.length, sizesHundredthsMB.sum)

/-- Claim C7: the query mapping of the notebook is exactly the one the claim
names, and for the CMR response recorded in the rendered transcript — three
granule entries whose size fields sum to 781.94 MB — `granule_info` parses a
granule count of 3 and a total size of 781.94 MB (78194 hundredths). -/
theorem granule_info_recorded_query :
    data_dict = [("short_name", PyVal.str "ATL07"),
      ("version", PyVal.str "002"),
      ("bounding_box", PyVal.str "140,72,153,80"),
      ("temporal", PyVal.str "2019-03-23T00:00:00Z,2019-03-23T23:59:59Z")] ∧
    ∀ sizes : List Nat, sizes.length = 3 → sizes.sum = 78194 →
      granule_info sizes = (3, 78194) := by
  refine ⟨rfl, ?_⟩
  intro sizes hlen hsum
  simp [granule_info, hlen, hsum]

/-- Witness for C7: three granule sizes consistent with the printed average
of 260.65 MB sum to 781.94 MB and parse to the recorded count and total. -/
theorem granule_info_recorded_query_witness :
    granule_info [26065, 26065, 26064] = (3, 78194) :=
  granule_info_recorded_query.2 [26065, 26065, 26064] rfl rfl

/-- A JSON value as loaded by `json.loads` in the collection-listing cell:
objects keep their fields in order, arrays their elements. -/
inductive Json where
  | null
  | bool (b : Bool)
  | num (n : Int)
  | str (s : String)
  | arr (elems : List Json)
  | obj (fields : List (String × Json))

/-- The exceptions Python raises on unguarded indexing: a missing key raises
KeyError, indexing a non-dict with a string key raises TypeError. -/
inductive PyExn where
  | keyError (k : String)
  | typeError
deriving DecidableEq

/-- Embeds the subscript expression `j[k]` of the listing cell: looks the key
up in a JSON object and raises KeyError when absent, TypeError when `j` is
not an object. -/
def index (j : Json) (k : String) : Except PyExn Json :=
  match j with
  | .obj fields =>
      match List.lookup k fields with
      | some v => .ok v
      | none => .error (.keyError k)
  | _ => .error .typeError

/-- The text a scalar JSON value contributes to a printed line (the string
fragment is the only one the metadata fields of the notebook use). -/
def Json.text : Json → String
  | .str s => s
  | .num n => toString n
  | .bool b => toString b
  | _ => ""

/-- Modelled from the spec: `print_cmr_metadata` prints one line per entry of
the form dataset_id: ..., version_id: ..., reading both fields from the
entry — exactly the lines shown in the rendered output of the cell. -/
def print_cmr_metadata (entry : Json) : Except PyExn String :=
  match index entry "dataset_id" with
  | .error e => .error e
  | .ok d =>
      match index entry "version_id" with
      | .error e => .error e
      | .ok v =>
          .ok ("dataset_id: " ++ d.text ++ ", version_id: " ++ v.text)

/-- The body of the for loop of the cell: print the metadata of each entry in
order, aborting at the first exception. -/
def printEntries : List Json → Except PyExn (List String)
  | [] => .ok []
  | e :: es =>
      match print_cmr_metadata e with
      | .error err => .error err
      | .ok line =>
          match printEntries es with
          | .error err => .error err
          | .ok rest => .ok (line :: rest)

/-- Embeds the collection-listing cell: load the response JSON and iterate
over results feed entry, printing one metadata line per entry; the
two subscripts carry no guard, so a missing key surfaces as an exception. -/
def listCollections (results : Json) : Except PyExn (List String) :=
  match index results "feed" with
  | .error e => .error e
  | .ok feedv =>
      match index feedv "entry" with
      | .error e => .error e
      | .ok entries =>
          match entries with
          | .arr es => printEntries es
          | _ => .error .typeError

/-- When the loop finishes without an exception it printed exactly one line
per entry. -/
theorem printEntries_length :
    ∀ (es : List Json) (l : List String), printEntries es = .ok l →
      l.length = es.length := by
  intro es
  induction es with
  | nil =>
      intro l hl
      cases hl
      rfl
  | cons e rest ih =>
      intro l hl
      unfold printEntries at hl
      match hm : print_cmr_metadata e with
      | .error err => rw [hm] at hl; exact absurd hl (by simp)
      | .ok line =>
          rw [hm] at hl
          match hr : printEntries rest with
          | .error err => rw [hr] at hl; exact absurd hl (by simp)
          | .ok tail =>
              rw [hr] at hl
              cases hl
              simp [ih tail hr]

/-- Claim C9: the listing step indexes the parsed response as
results feed entry with no guard — when the JSON lacks a feed key, or its
feed lacks an entry key, the step raises an exception and never returns a
listing (in particular never an empty one) — and otherwise it prints exactly
one metadata line per entry. -/
theorem collection_listing_unguarded :
    (∀ j : Json, (∀ feedv, index j "feed" ≠ .ok feedv) →
      ∃ e, listCollections j = .error e) ∧
    (∀ (j feedv : Json), index j "feed" = .ok feedv →
      (∀ ev, index feedv "entry" ≠ .ok ev) →
      ∃ e, listCollections j = .error e) ∧
    (∀ (j feedv : Json) (es : List Json) (l : List String),
      index j "feed" = .ok feedv → index feedv "entry" = .ok (.arr es) →
      listCollections j = .ok l → l.length = es.length) := by
  refine ⟨?_, ?_, ?_⟩
  · intro j hno
    match hf : index j "feed" with
    | .error e => exact ⟨e, by simp [listCollections, hf]⟩
    | .ok feedv => exact absurd hf (hno feedv)
  · intro j feedv hf hno
    match he : index feedv "entry" with
    | .error e => exact ⟨e, by simp [listCollections, hf, he]⟩
    | .ok ev => exact absurd he (hno ev)
  · intro j feedv es l hf he hl
    simp only [listCollections, hf, he] at hl
    exact printEntries_length es l hl

/-- The two version entries shown in the rendered output of the listing
cell, as JSON objects. -/
def sampleEntries : List Json :=
  [Json.obj [("dataset_id", Json.str "ATLAS/ICESat-2 L3A Sea Ice Height V001"),
     ("version_id", Json.str "001")],
   Json.obj [("dataset_id", Json.str "ATLAS/ICESat-2 L3A Sea Ice Height V002"),
     ("version_id", Json.str "002")]]

/-- A response body shaped like the one the rendered listing cell parsed. -/
def sampleResults : Json :=
  Json.obj [("feed", Json.obj [("entry", Json.arr sampleEntries)])]

/-- Witness for C9: an empty JSON object has no feed key, so the listing step
raises instead of returning an empty listing; and the two-entry response of
the rendered cell prints exactly two lines. -/
theorem collection_listing_unguarded_witness :
    (∃ e, listCollections (Json.obj []) = .error e) ∧
      (["dataset_id: ATLAS/ICESat-2 L3A Sea Ice Height V001, version_id: 001",
        "dataset_id: ATLAS/ICESat-2 L3A Sea Ice Height V002, version_id: 002"]
        : List String).length = sampleEntries.length :=
  ⟨collection_listing_unguarded.1 (Json.obj [])
      (fun _ h => Except.noConfusion h),
    collection_listing_unguarded.2.2 sampleResults
      (Json.obj [("entry", Json.arr sampleEntries)]) sampleEntries _
      rfl rfl rfl⟩

/-- The single-quote character (code 39). -/
def squote : Char := Char.ofNat 39

/-- The double-quote character (code 34). -/
def dquote : Char := Char.ofNat 34

/-- The backslash character (code 92). -/
def bslash : Char := Char.ofNat 92

/-- The lowercase hexadecimal digit of a value below 16. -/
def hexDigit (n : Nat) : Char :=
  if n < 10 then Char.ofNat (48 + n) else Char.ofNat (87 + n)

/-- One character of a Python string repr, escaped with respect to the
chosen quote character `q`: the backslash and the quote itself are
backslash-escaped; newline, carriage return and tab become their two-letter
escapes; every other ASCII control character — codes below 32 and the
DEL character 127 — is spelled out as a backslash-x-HH escape, exactly as
CPython repr does.  Characters of code 128 and above stand for themselves,
the behaviour of repr on printable non-ASCII text; the non-printable ones
among them (which CPython escapes as backslash-x or backslash-u) lie
outside the clean fragment the coincidence theorem quantifies over. -/
def pyReprChar (q c : Char) : List Char :=
  if c = bslash then [bslash, bslash]
  else if c = q then [bslash, q]
  else if c = Char.ofNat 10 then [bslash, Char.ofNat 110]
  else if c = Char.ofNat 13 then [bslash, Char.ofNat 114]
  else if c = Char.ofNat 9 then [bslash, Char.ofNat 116]
  else if c.toNat < 32 ∨ c.toNat = 127 then
    [bslash, Char.ofNat 120, hexDigit (c.toNat / 16), hexDigit (c.toNat % 16)]
  else [c]

/-- The quote character Python repr picks for a string: a single quote,
unless the string contains a single quote and no double quote, in which case
the repr is double-quoted. -/
def pyReprQuote (s : String) : Char :=
  if s.data.contains squote && !(s.data.contains dquote) then dquote
  else squote

/-- Python repr of a string: the chosen quote, the escaped characters, and
the closing quote. -/
def pyReprStr (s : String) : String :=
  String.mk (pyReprQuote s :: ((s.data.map (pyReprChar (pyReprQuote s))).flatten
    ++ [pyReprQuote s]))

/-- Embeds the conversion spec r of the format string of the param_string
cell: Python repr of the value. -/
def pyRepr : PyVal → String
  | .str s => pyReprStr s
  | .int n => toString n

/-- Python str() of a value: the string itself, or the decimal rendering of
the integer. -/
def pyStr : PyVal → String
  | .str s => s
  | .int n => toString n

/-- Embeds the param_dict cell: the data dictionary with the CMR-only keys
gran_num and page_num removed, insertion order kept. -/
def mkParamDict (dd : ParamMap) : ParamMap :=
  dd.filter (fun kv => (kv.1 != "gran_num") && (kv.1 != "page_num"))

/-- One formatted pair of the param_string cell: str of the key, an equals
sign, repr of the value. -/
def pairString (kv : String × PyVal) : String :=
  kv.1 ++ "=" ++ pyRepr kv.2

/-- The ampersand-join of the param_string cell. -/
def joinAmp : List String → String
  | [] => ""
  | [s] => s
  | s :: rest => s ++ "&" ++ joinAmp rest

/-- Embeds the second param_string line: str.replace of every single-quote
character with the empty string, that is, deletion of every single quote. -/
def removeSingleQuotes (s : String) : String :=
  String.mk (s.data.filter (fun c => c != squote))

/-- Embeds the param_string value of the cell: the joined key-repr pairs of
the filtered dictionary with every single quote deleted. -/
def param_string (dd : ParamMap) : String :=
  removeSingleQuotes (joinAmp ((mkParamDict dd).map pairString))

/-- Embeds the API_request line of the cell: the base URL, a question mark,
and the parameter string. -/
def API_request (base_url : String) (dd : ParamMap) : String :=
  base_url ++ "?" ++ param_string dd

/-- The URL the claim describes, for comparison with the code: plain
key=value pairs (the value itself, not its repr) joined with ampersands,
after which every single quote is deleted from the whole string. -/
def claimedPair (kv : String × PyVal) : String :=
  kv.1 ++ "=" ++ pyStr kv.2

/-- The version of the request URL that the claim describes. -/
def claimedRequest (base_url : String) (dd : ParamMap) : String :=
  base_url ++ "?" ++
    removeSingleQuotes (joinAmp ((mkParamDict dd).map claimedPair))

/-- A string value containing a single quote: a, quote, b. -/
def quoteVal : String := String.mk [Char.ofNat 97, squote, Char.ofNat 98]

/-- Counterexample to C8 as stated: for the parameter value a-quote-b, the
URL built by the code carries short_name="ab" — Python repr switches to
double quotes — while the join-then-strip description of the claim predicts
short_name=ab, so the
two URLs differ. -/
theorem api_request_claim_counterexample :
    API_request "https://n5eil02u.ecs.nsidc.org/egi/request"
        [("short_name", PyVal.str quoteVal)] ≠
      claimedRequest "https://n5eil02u.ecs.nsidc.org/egi/request"
        [("short_name", PyVal.str quoteVal)] := by
  decide

/-- A character is clean when repr leaves it alone and no quote switching
can be caused by it: printable ASCII (code 32 to 126) other than the single
quote and the backslash.  In particular every control character, whose repr
spells out an escape, is excluded. -/
def cleanChar (c : Char) : Bool :=
  (c != squote) && (c != bslash) &&
    decide (32 ≤ c.toNat) && decide (c.toNat < 127)

/-- A value is clean when it is an integer or a string of clean characters. -/
def cleanVal : PyVal → Bool
  | .str s => s.data.all cleanChar
  | .int _ => true

/-- A dictionary is clean when all its values are. -/
def cleanDict (dd : ParamMap) : Bool :=
  dd.all (fun kv => cleanVal kv.2)

/-- Deleting single quotes commutes with string append. -/
theorem removeSingleQuotes_append (a b : String) :
    removeSingleQuotes (a ++ b) =
      removeSingleQuotes a ++ removeSingleQuotes b := by
  apply String.ext
  simp [removeSingleQuotes, String.data_append, List.filter_append]

/-- A clean character is not the single quote, so the quote filter keeps
it. -/
theorem cleanChar_not_squote {c : Char} (h : cleanChar c = true) :
    (c != squote) = true := by
  simp only [cleanChar, Bool.and_eq_true] at h
  exact h.1.1.1

/-- Deleting single quotes from a clean string changes nothing. -/
theorem removeSingleQuotes_clean {s : String}
    (h : s.data.all cleanChar = true) :
    removeSingleQuotes s = s := by
  apply String.ext
  show s.data.filter (fun c => c != squote) = s.data
  exact List.filter_eq_self.2
    (fun c hc => cleanChar_not_squote (List.all_eq_true.1 h c hc))

/-- A clean string contains no single quote, so repr quotes it with the
single quote. -/
theorem pyReprQuote_clean {s : String} (h : s.data.all cleanChar = true) :
    pyReprQuote s = squote := by
  cases hcon : s.data.contains squote with
  | false =>
      unfold pyReprQuote
      rw [hcon]
      simp
  | true =>
      have hmem : squote ∈ s.data := by simpa using hcon
      have := List.all_eq_true.1 h squote hmem
      exact absurd this (by decide)

/-- Repr leaves a clean character alone when quoting with the single
quote. -/
theorem pyReprChar_clean {c : Char} (h : cleanChar c = true) :
    pyReprChar squote c = [c] := by
  simp only [cleanChar, Bool.and_eq_true, bne_iff_ne, ne_eq,
    decide_eq_true_eq] at h
  obtain ⟨⟨⟨h1, h2⟩, h3⟩, h4⟩ := h
  have h10 : ¬(c = Char.ofNat 10) := by
    intro e; rw [e] at h3; exact absurd h3 (by decide)
  have h13 : ¬(c = Char.ofNat 13) := by
    intro e; rw [e] at h3; exact absurd h3 (by decide)
  have h9 : ¬(c = Char.ofNat 9) := by
    intro e; rw [e] at h3; exact absurd h3 (by decide)
  have hctl : ¬(c.toNat < 32 ∨ c.toNat = 127) := by omega
  simp [pyReprChar, h1, h2, h10, h13, h9, hctl]

/-- Escaping a list of clean characters reproduces the list. -/
theorem flatten_map_pyReprChar_clean :
    ∀ cs : List Char, cs.all cleanChar = true →
      (cs.map (pyReprChar squote)).flatten = cs := by
  intro cs
  induction cs with
  | nil => intro _; rfl
  | cons c rest ih =>
      intro h
      have hh := List.all_eq_true.1 h
      have hc := hh c (List.mem_cons_self c rest)
      have hrest : rest.all cleanChar = true :=
        List.all_eq_true.2 (fun x hx => hh x (List.mem_cons_of_mem c hx))
      simp [pyReprChar_clean hc, ih hrest]

/-- Deleting single quotes from the repr of a clean string gives the string
back: the surrounding quotes go away and the body is untouched. -/
theorem removeSingleQuotes_pyReprStr_clean {s : String}
    (h : s.data.all cleanChar = true) :
    removeSingleQuotes (pyReprStr s) = s := by
  have hdata : (pyReprStr s).data = squote :: (s.data ++ [squote]) := by
    rw [pyReprStr, pyReprQuote_clean h, flatten_map_pyReprChar_clean s.data h]
  apply String.ext
  show (pyReprStr s).data.filter (fun c => c != squote) = s.data
  rw [hdata]
  have hkeep : s.data.filter (fun c => c != squote) = s.data :=
    List.filter_eq_self.2
      (fun c hc => cleanChar_not_squote (List.all_eq_true.1 h c hc))
  simp [List.filter_cons, List.filter_append, hkeep]

/-- On a clean value the submitted pair and the plain pair of the claim agree
after single-quote deletion. -/
theorem pair_clean {kv : String × PyVal} (h : cleanVal kv.2 = true) :
    removeSingleQuotes (pairString kv) =
      removeSingleQuotes (claimedPair kv) := by
  obtain ⟨k, v⟩ := kv
  match v with
  | .int n => rfl
  | .str s =>
      have hs : s.data.all cleanChar = true := h
      show removeSingleQuotes (k ++ "=" ++ pyReprStr s) =
        removeSingleQuotes (k ++ "=" ++ s)
      simp only [removeSingleQuotes_append]
      rw [removeSingleQuotes_pyReprStr_clean hs, removeSingleQuotes_clean hs]

/-- Unfolding equation of the ampersand join on a list of two or more
items. -/
theorem joinAmp_cons₂ (a b : String) (l : List String) :
    joinAmp (a :: b :: l) = a ++ "&" ++ joinAmp (b :: l) := rfl

/-- Over a dictionary of clean values the joined repr pairs and the joined
plain pairs agree after single-quote deletion. -/
theorem joinAmp_pairs_clean :
    ∀ pd : ParamMap, (∀ kv ∈ pd, cleanVal kv.2 = true) →
      removeSingleQuotes (joinAmp (pd.map pairString)) =
        removeSingleQuotes (joinAmp (pd.map claimedPair)) := by
  intro pd
  induction pd with
  | nil => intro _; rfl
  | cons kv rest ih =>
      intro h
      have hkv : cleanVal kv.2 = true := h kv (List.mem_cons_self kv rest)
      have hrest : ∀ x ∈ rest, cleanVal x.2 = true :=
        fun x hx => h x (List.mem_cons_of_mem kv hx)
      cases rest with
      | nil => exact pair_clean hkv
      | cons r t =>
          simp only [List.map_cons, joinAmp_cons₂]
          rw [removeSingleQuotes_append, removeSingleQuotes_append,
            removeSingleQuotes_append, removeSingleQuotes_append]
          rw [pair_clean hkv]
          have := ih hrest
          simp only [List.map_cons] at this
          rw [this]

/-- Claim C8 amended: the submitted URL is the base URL, a question mark,
and the ampersand-joined pairs key=repr(value) of the keys other than
gran_num and page_num, with every single quote then deleted from the whole
string.  When every character of every string value is printable ASCII
other than the single quote and the backslash — so repr escapes nothing —
this coincides with the plain key=value join the claim describes; but a
value containing a single quote is silently altered, and its submitted pair
moreover differs from the plain key=value text because repr switches to
double quotes around it. -/
theorem api_request_amended :
    (∀ (base : String) (dd : ParamMap), cleanDict dd = true →
      API_request base dd = claimedRequest base dd) ∧
    (∀ (k s : String), s.data.contains squote = true →
      removeSingleQuotes (pairString (k, PyVal.str s)) ≠ k ++ "=" ++ s) := by
  constructor
  · intro base dd h
    unfold API_request claimedRequest param_string
    congr 1
    apply joinAmp_pairs_clean
    intro kv hkv
    exact List.all_eq_true.1 h kv (List.mem_of_mem_filter hkv)
  · intro k s hcon heq
    have hdata := congrArg String.data heq
    have hmem : squote ∈ (k ++ "=" ++ s).data := by
      rw [String.data_append]
      exact List.mem_append_right _ (by simpa using hcon)
    rw [← hdata] at hmem
    simp [removeSingleQuotes, List.mem_filter] at hmem

/-- Embeds the coverage cell: the comma-joined variable paths of the three
strong beams. -/
def coverage : String :=
  "/gt1l/sea_ice_segments/delta_time,/gt1l/sea_ice_segments/latitude," ++
  "/gt1l/sea_ice_segments/longitude," ++
  "/gt1l/sea_ice_segments/heights/height_segment_confidence," ++
  "/gt1l/sea_ice_segments/heights/height_segment_height," ++
  "/gt1l/sea_ice_segments/heights/height_segment_quality," ++
  "/gt1l/sea_ice_segments/heights/height_segment_surface_error_est," ++
  "/gt1l/sea_ice_segments/heights/height_segment_length_seg," ++
  "/gt2l/sea_ice_segments/delta_time,/gt2l/sea_ice_segments/latitude," ++
  "/gt2l/sea_ice_segments/longitude," ++
  "/gt2l/sea_ice_segments/heights/height_segment_confidence," ++
  "/gt2l/sea_ice_segments/heights/height_segment_height," ++
  "/gt2l/sea_ice_segments/heights/height_segment_quality," ++
  "/gt2l/sea_ice_segments/heights/height_segment_surface_error_est," ++
  "/gt2l/sea_ice_segments/heights/height_segment_length_seg," ++
  "/gt3l/sea_ice_segments/delta_time,/gt3l/sea_ice_segments/latitude," ++
  "/gt3l/sea_ice_segments/longitude," ++
  "/gt3l/sea_ice_segments/heights/height_segment_confidence," ++
  "/gt3l/sea_ice_segments/heights/height_segment_height," ++
  "/gt3l/sea_ice_segments/heights/height_segment_quality," ++
  "/gt3l/sea_ice_segments/heights/height_segment_surface_error_est," ++
  "/gt3l/sea_ice_segments/heights/height_segment_length_seg"

/-- Embeds the bbox subsetting cell: decimal-degree W,S,E,N, the same extent
as the search parameter. -/
def data_dict_bbox : String := "140,72,153,80"

/-- Embeds the time subsetting cell: the temporal range without the Z
suffixes. -/
def data_dict_time : String := "2019-03-23T00:00:00,2019-03-23T23:59:59"

/-- Embeds the fully populated data dictionary just before the request cell:
the CMR search keys, the granule count added after granule_info, the email
(left empty in the committed cell), the subsetting keys bbox, time and
coverage, and the access configuration, in notebook insertion order. -/
def data_dict_full : ParamMap :=
  [("short_name", PyVal.str "ATL07"),
   ("version", PyVal.str "002"),
   ("bounding_box", PyVal.str bounding_box),
   ("temporal", PyVal.str temporal),
   ("gran_num", PyVal.int 3),
   ("email", PyVal.str ""),
   ("bbox", PyVal.str data_dict_bbox),
   ("time", PyVal.str data_dict_time),
   ("coverage", PyVal.str coverage),
   ("request_mode", PyVal.str "async"),
   ("page_size", PyVal.int 2000)]

set_option maxRecDepth 20000 in
/-- Witness for the amended C8: the own dictionary of the notebook is clean, so
its submitted URL matches the plain join-then-strip description, while the
value a-quote-b yields a submitted pair that differs from the plain
key=value text. -/
theorem api_request_amended_witness :
    API_request "https://n5eil02u.ecs.nsidc.org/egi/request" data_dict_full =
      claimedRequest "https://n5eil02u.ecs.nsidc.org/egi/request"
        data_dict_full ∧
    removeSingleQuotes (pairString ("short_name", PyVal.str quoteVal)) ≠
      "short_name" ++ "=" ++ quoteVal :=
  ⟨api_request_amended.1 "https://n5eil02u.ecs.nsidc.org/egi/request"
      data_dict_full (by decide),
    api_request_amended.2 "short_name" quoteVal (by decide)⟩

/-- Drops a final Z from a datetime string, leaving other strings alone. -/
def stripTrailingZ (s : String) : String :=
  match s.data.getLast? with
  | some c => if c = Char.ofNat 90 then String.mk s.data.dropLast else s
  | none => s

/-- The start datetime of the search temporal range. -/
def temporal_start : String := "2019-03-23T00:00:00Z"

/-- The end datetime of the search temporal range. -/
def temporal_end : String := "2019-03-23T23:59:59Z"

set_option maxRecDepth 20000 in
/-- Claim C10: the workflow keeps search and subset scope consistent in the
submitted order — the subsetting bbox string equals the search bounding_box
string, the search temporal range is the two Z-suffixed datetimes, the
subsetting time value is those datetimes with the trailing Z removed from
each, and both subsetting keys survive into the submitted parameter
dictionary with exactly these values. -/
theorem search_subset_scope_consistent :
    data_dict_bbox = bounding_box ∧
    temporal = temporal_start ++ "," ++ temporal_end ∧
    data_dict_time =
      stripTrailingZ temporal_start ++ "," ++ stripTrailingZ temporal_end ∧
    List.lookup "bbox" (mkParamDict data_dict_full) =
      some (PyVal.str bounding_box) ∧
    List.lookup "time" (mkParamDict data_dict_full) =
      some (PyVal.str (stripTrailingZ temporal_start ++ "," ++
        stripTrailingZ temporal_end)) := by
  refine ⟨?_, ?_, ?_, ?_, ?_⟩ <;> decide

end NsidcTutorial
